import Mathlib

/-!
Shallow embedding of the Live ISS Tracker repository (src/app.py,
src/data_fetcher.py): the synthetic pass generator `_simulated_passes`,
the pass resolver `get_iss_passes` with its live-client fallback, the
collision estimator `get_collision_risks`, and the request handler's
geocoding check in `index`. Python floats are modelled as exact
rationals where the code's arithmetic is exact decimal/integer work
(the pass generator), and as reals where the code calls `math.sqrt`
and `math.exp` (the collision estimator).
-/

namespace ISSTracker

/-! ### Python numeric primitives -/

/-- Python's built-in `round(y)` at integer precision: round half to even. -/
def roundHE {α : Type} [LinearOrderedField α] [FloorRing α] (y : α) : ℤ :=
  if y - (⌊y⌋ : α) < 1/2 then ⌊y⌋
  else if (1 : α)/2 < y - (⌊y⌋ : α) then ⌊y⌋ + 1
  else if ⌊y⌋ % 2 = 0 then ⌊y⌋ else ⌊y⌋ + 1

/-- Python's `round(x, n)`: round half to even at `n` decimal digits. -/
def pyRound {α : Type} [LinearOrderedField α] [FloorRing α] (n : ℕ) (x : α) : α :=
  ((roundHE (x * (10 : α) ^ n) : ℤ) : α) / (10 : α) ^ n

/-- Python's `int(x)` on a number: truncation toward zero. -/
def pyInt {α : Type} [LinearOrderedField α] [FloorRing α] (x : α) : ℤ :=
  if x < 0 then ⌈x⌉ else ⌊x⌋

section RoundLemmas

variable {α : Type} [LinearOrderedField α] [FloorRing α] {y : α} {n : ℤ}

theorem roundHE_cases (y : α) : roundHE y = ⌊y⌋ ∨ roundHE y = ⌊y⌋ + 1 := by
  unfold roundHE
  split_ifs <;> simp

theorem floor_le_roundHE (y : α) : ⌊y⌋ ≤ roundHE y := by
  rcases roundHE_cases y with h | h <;> omega

theorem roundHE_le_floor_add_one (y : α) : roundHE y ≤ ⌊y⌋ + 1 := by
  rcases roundHE_cases y with h | h <;> omega

theorem roundHE_le (h : y < (n : α) + 1/2) : roundHE y ≤ n := by
  have hfn : ⌊y⌋ ≤ n := by
    have hy1 : y < ((n + 1 : ℤ) : α) := by
      have : ((n + 1 : ℤ) : α) = (n : α) + 1 := by push_cast; ring
      rw [this]; linarith
    have := Int.floor_lt.2 hy1
    omega
  rcases lt_or_eq_of_le hfn with hlt | heq
  · have := roundHE_le_floor_add_one y
    omega
  · have hr : y - (⌊y⌋ : α) < 1/2 := by
      rw [heq]; linarith
    unfold roundHE
    rw [if_pos hr]
    omega

theorem le_roundHE (h : (n : α) - 1/2 < y) : n ≤ roundHE y := by
  by_cases hfn : n ≤ ⌊y⌋
  · exact le_trans hfn (floor_le_roundHE y)
  · push_neg at hfn
    have h1 : ⌊y⌋ = n - 1 := by
      have h2 : (n - 1 : ℤ) ≤ ⌊y⌋ := by
        apply Int.le_floor.2
        push_cast
        linarith
      omega
    have hr : (1 : α)/2 < y - (⌊y⌋ : α) := by
      rw [h1]; push_cast; linarith
    have hr' : ¬ (y - (⌊y⌋ : α) < 1/2) := by linarith
    unfold roundHE
    rw [if_neg hr', if_pos hr]
    omega

theorem roundHE_le_of_le (h : y ≤ (n : α)) : roundHE y ≤ n := by
  have h0 : (0 : α) < 1/2 := by norm_num
  exact roundHE_le (by linarith)

theorem le_roundHE_of_le (h : (n : α) ≤ y) : n ≤ roundHE y := by
  have h0 : (0 : α) < 1/2 := by norm_num
  exact le_roundHE (by linarith)

end RoundLemmas

/-! ### The process-wide random source

CPython's `random` module (Mersenne Twister) is library code outside the
repository; the embedding abstracts its observable contract — a stream of
draws fully determined by the seed, kept in hidden process-wide state —
with a linear congruential generator over 31-bit values. -/

/-- One step of the abstracted generator. -/
def lcgNext (s : ℕ) : ℕ := (1103515245 * s + 12345) % 2147483648

/-- Hidden state of the process-wide random source. -/
structure RngState where
  state : ℕ
deriving DecidableEq

def rngStep (g : RngState) : ℕ × RngState :=
  (lcgNext g.state, ⟨lcgNext g.state⟩)

def mkRng (seed : ℕ) : RngState := ⟨seed⟩

/-- `random.seed(seed)`: a given seed resets the hidden state
deterministically; `random.seed()` (seed is None) draws fresh entropy,
abstracted as keeping the ambient state. -/
def pySeed : Option ℕ → RngState → RngState
  | some s, _ => mkRng s
  | none, g => g

/-- `random.random()`: a uniform draw in [0, 1). -/
def randRandom (g : RngState) : ℚ × RngState :=
  ((((rngStep g).1 : ℚ) / 2147483648, (rngStep g).2))

/-- `random.randint(a, b)`: a uniform integer in [a, b] (callers pass a ≤ b). -/
def randInt (a b : ℤ) (g : RngState) : ℤ × RngState :=
  (a + ((rngStep g).1 : ℤ) % (b - a + 1), (rngStep g).2)

/-- `random.choice(l)`: a uniformly chosen element of the list. -/
def randChoice (l : List ℕ) (g : RngState) : ℕ × RngState :=
  (l.getD ((rngStep g).1 % l.length) 0, (rngStep g).2)

/-- `random.gauss(mu, sigma)`: a normal draw, abstracted as mu + sigma * t
with t derived from the stream (the claims only use clamping, never the
distribution itself). -/
def randGauss (mu sigma : ℚ) (g : RngState) : ℚ × RngState :=
  (mu + sigma * ((((rngStep g).1 : ℚ) / 2147483648) * 6 - 3), (rngStep g).2)

/-! ### Pass events (`data_fetcher.py`) -/

/-- One pass dict as built by `_simulated_passes` / `get_iss_passes`:
display string, both ISO timestamps, duration in seconds, max elevation
(absent in live events, whose dicts carry no such key), provenance tag. -/
structure PassEvent where
  time : String
  iso_time_local : String
  iso_time_utc : String
  duration : ℤ
  max_elev_deg : Option ℚ
  source : String
deriving DecidableEq

/-- The datetime renderers used by the module (`strftime` via `_fmt_pass_dt`
and `isoformat`), opaque functions of the instant (UTC epoch seconds). -/
structure Fmt where
  display : ℤ → String
  isoUtc : ℤ → String
  isoLocal : ℤ → String

/-- `day_gap_choices = [1, 1, 2, 2, 3, 4]`. -/
def dayGapChoices : List ℕ := [1, 1, 2, 2, 3, 4]

/-- The per-step phase update: `if random.random() >= 0.15: is_evening =
not is_evening`, as a function of the flag and the uniform draw. -/
def phaseStep (isEvening : Bool) (u : ℚ) : Bool :=
  if 0.15 ≤ u then !isEvening else isEvening

/-- The for-loop body of `_simulated_passes`, iterated `number` times:
draw a day gap, maybe flip the evening/morning phase, draw a time of day,
build UTC/local instants, draw elevation and duration, emit the dict. -/
def simLoop (fmt : Fmt) (tzOff : ℤ) : ℕ → ℤ → Bool → RngState → List PassEvent × RngState
  | 0, _, _, g => ([], g)
  | n + 1, currentDate0, isEvening0, g0 =>
    let c1 := randChoice dayGapChoices g0
    let currentDate := currentDate0 + (c1.1 : ℤ) * 86400
    let c2 := randRandom c1.2
    let isEvening := phaseStep isEvening0 c2.1
    let c3 := if isEvening then randInt 18 23 c2.2 else randInt 4 7 c2.2
    let c4 := randInt 0 59 c3.2
    let c5 := randInt 0 59 c4.2
    let passUtc := 86400 * (currentDate.fdiv 86400) + c3.1 * 3600 + c4.1 * 60 + c5.1
    let passLocal := passUtc + tzOff
    let c6 := randGauss 45 15 c5.2
    let maxElev := pyRound 1 (min 85 (max 10 c6.1))
    let c7 := randInt (-60) 60 c6.2
    let dur := max 120 (min 900 (pyInt (120 + maxElev * 6 + (c7.1 : ℚ))))
    let rest := simLoop fmt tzOff n currentDate isEvening c7.2
    ({ time := fmt.display passLocal
       iso_time_local := fmt.isoLocal passLocal
       iso_time_utc := fmt.isoUtc passUtc
       duration := dur
       max_elev_deg := some maxElev
       source := "simulated" } :: rest.1, rest.2)

/-- `_simulated_passes(number, start_utc, seed)`. `nowUtc` is the ambient
`datetime.utcnow()` used when `start_utc` is None; the process random state
is passed and returned explicitly. -/
def _simulated_passes (fmt : Fmt) (tzOff nowUtc : ℤ) (number : ℕ)
    (startUtc : Option ℤ) (seed : Option ℕ) (g : RngState) :
    List PassEvent × RngState :=
  let g1 := pySeed seed g
  let r := randRandom g1
  simLoop fmt tzOff number (startUtc.getD nowUtc) (decide (r.1 < 0.65)) r.2

/-! ### The pass resolver (`get_iss_passes`) -/

/-- One record of the N2YO `passes` array: `startUTC` (epoch seconds) and
an optional `duration` (read with `p.get('duration', 0)`). -/
structure PassRecord where
  startUTC : ℤ
  duration : Option ℤ
deriving DecidableEq

/-- Outcome of the one `requests.get` call: `raised` for any
`RequestException` (network error, timeout, JSON decode failure), or a
response with its status code and the parsed `passes` field (`none` models
a falsy body or a body with no non-empty `passes` key check input). -/
inductive NetResult where
  | raised
  | ok (status : ℕ) (passesField : Option (List PassRecord))
deriving DecidableEq

/-- The mapping applied to each upstream pass record on success. -/
def liveEvent (fmt : Fmt) (tzOff : ℤ) (p : PassRecord) : PassEvent :=
  { time := fmt.display (p.startUTC + tzOff)
    duration := p.duration.getD 0
    source := "n2yo"
    iso_time_utc := fmt.isoUtc p.startUTC
    iso_time_local := fmt.isoLocal (p.startUTC + tzOff)
    max_elev_deg := none }

/-- `get_iss_passes(api_key, lat, lon, number_of_passes, USE_REAL_API)`.
The api key and coordinates only form the request URL, so they do not
appear; the network outcome is the `net` parameter. `raise_for_status`
raises exactly for status codes in [400, 600), and the 403/429 check
precedes it. -/
def get_iss_passes (fmt : Fmt) (tzOff nowUtc : ℤ) (number_of_passes : ℕ)
    (USE_REAL_API : Bool) (net : NetResult) (g : RngState) :
    List PassEvent × RngState :=
  if !USE_REAL_API then
    _simulated_passes fmt tzOff nowUtc number_of_passes none none g
  else
    match net with
    | .raised => _simulated_passes fmt tzOff nowUtc number_of_passes none none g
    | .ok status passesField =>
      if status = 403 ∨ status = 429 then
        _simulated_passes fmt tzOff nowUtc number_of_passes none none g
      else if 400 ≤ status ∧ status < 600 then
        _simulated_passes fmt tzOff nowUtc number_of_passes none none g
      else
        match passesField with
        | none => _simulated_passes fmt tzOff nowUtc number_of_passes none none g
        | some [] => _simulated_passes fmt tzOff nowUtc number_of_passes none none g
        | some (p :: ps) => ((p :: ps).map (liveEvent fmt tzOff), g)

/-- The documented live-client failure outcomes: an exception, HTTP
403/429, any other HTTP error status, or a response with no pass entries. -/
def netFails : NetResult → Bool
  | .raised => true
  | .ok _ none => true
  | .ok s (some l) =>
    decide (s = 403) || decide (s = 429) ||
      (decide (400 ≤ s) && decide (s < 600)) || l.isEmpty

/-- A concrete trivial renderer, for witnesses and counterexamples. -/
def fmtTrivial : Fmt := ⟨fun _ => "", fun _ => "", fun _ => ""⟩

/-! ### The collision estimator (`get_collision_risks`) -/

/-- One entry of the fixed debris catalog. -/
structure DebrisObj where
  name : String
  altitude : ℚ
  inclination : ℚ
deriving DecidableEq

/-- The fixed demo catalog. -/
def debris_objects : List DebrisObj :=
  [⟨"FENGYUN-1C DEB", 850, 98.5⟩,
   ⟨"COSMOS-2251 DEB", 790, 74.0⟩,
   ⟨"IRIDIUM-33 DEB", 770, 86.4⟩,
   ⟨"ATLAS V R/B", 420, 51.7⟩,
   ⟨"STARLINK DEB", 550, 53.0⟩,
   ⟨"CZ-2C R/B", 430, 49.5⟩]

/-- `altitude_diff = abs(obj["altitude"] - ISS_ALTITUDE_KM)` with
`ISS_ALTITUDE_KM = 408.0`. -/
def altitudeDiff (o : DebrisObj) : ℚ := |o.altitude - 408|

/-- `inc_diff = abs(obj["inclination"] - ISS_INCLINATION_DEG)` with
`ISS_INCLINATION_DEG = 51.6`. -/
def incDiff (o : DebrisObj) : ℚ := |o.inclination - 51.6|

/-- `distance = math.sqrt(altitude_diff*2 + (inc_diff * 10)*2)` — the
source multiplies each term by 2 (no exponent). -/
noncomputable def heurDist (o : DebrisObj) : ℝ :=
  Real.sqrt ((altitudeDiff o : ℝ) * 2 + ((incDiff o : ℝ) * 10) * 2)

/-- The threshold classification: High below 10, Medium below 30, else Low. -/
noncomputable def riskLevel (o : DebrisObj) : String :=
  if heurDist o < 10 then "High"
  else if heurDist o < 30 then "Medium"
  else "Low"

/-- `Pc = round(math.exp(-(distance*2) / (2 * (20*2))) * 1e-3, 6)` — again
`*2` is multiplication by 2 in the source. -/
noncomputable def collisionProb (o : DebrisObj) : ℝ :=
  pyRound 6 (Real.exp (-(heurDist o * 2) / (2 * (20 * 2))) * (1/1000))

/-- One entry of the returned risk list. -/
structure Risk where
  object_name : String
  miss_distance_km : ℝ
  time : String
  level : String
  probability : ℝ
  simulated : Bool

/-- The dict appended for one catalog object (`t` is the formatted event
time drawn inside the loop). -/
noncomputable def mkRiskEntry (t : String) (o : DebrisObj) : Risk :=
  { object_name := o.name
    miss_distance_km := pyRound 2 (heurDist o)
    time := t
    level := riskLevel o
    probability := collisionProb o
    simulated := true }

/-- The for-loop of `get_collision_risks`: one risk entry per catalog
object, threading the random source through the event-time draws
(`random.randint(6, max(6, days * 24))` hours from now). `fmtEvent`
renders the event instant with `strftime`. -/
noncomputable def riskLoop (fmtEvent : ℤ → String) (nowUtc : ℤ) (days : ℕ) :
    List DebrisObj → RngState → List Risk × RngState
  | [], g => ([], g)
  | o :: rest, g =>
    let c := randInt 6 (max 6 ((days : ℤ) * 24)) g
    let r := riskLoop fmtEvent nowUtc days rest c.2
    (mkRiskEntry (fmtEvent (nowUtc + c.1 * 3600)) o :: r.1, r.2)

/-- The sort key of `risks.sort(key=lambda x: x["miss_distance_km"])`. -/
noncomputable def riskLE (a b : Risk) : Bool :=
  decide (a.miss_distance_km ≤ b.miss_distance_km)

/-- `get_collision_risks(days)`: build the six entries, sort ascending by
miss distance, return. -/
noncomputable def get_collision_risks (fmtEvent : ℤ → String) (nowUtc : ℤ)
    (days : ℕ) (g : RngState) : List Risk × RngState :=
  let r := riskLoop fmtEvent nowUtc days debris_objects g
  (r.1.mergeSort riskLE, r.2)

/-! ### The request handler (`app.py::index`, POST branch) -/

/-- What the handler renders: an early error page, or the results page the
rest of the pipeline (passes, ISS position, map, astronauts, risks) builds. -/
inductive PageResult where
  | errorPage (msg : String)
  | resultsPage (payload : String)
deriving DecidableEq

/-- The POST branch of `index` up to the geocoding check. `geo` is the
outcome of `get_coords_from_city` (`none` models the `(None, None, None)`
failure triple); `rest` is everything after the check (pass fetch, map
build, results rendering). `if not user_lat` tests Python truthiness, so
latitude 0.0 takes the failure branch exactly like None. -/
def handleCity (userCity : String) (geo : Option (ℚ × ℚ × String))
    (rest : ℚ → ℚ → String → PageResult) : PageResult :=
  if userCity = "" then .errorPage "Please enter a valid city name."
  else
    match geo with
    | none => .errorPage ("Could not find location for '" ++ userCity ++ "'.")
    | some (lat, lon, addr) =>
      if lat = 0 then .errorPage ("Could not find location for '" ++ userCity ++ "'.")
      else rest lat lon addr

/-- The handler itself first strips the form value (`request.form["city"]
.strip()`) and then runs the checks above on the stripped city. -/
def index (city : String) (geo : Option (ℚ × ℚ × String))
    (rest : ℚ → ℚ → String → PageResult) : PageResult :=
  handleCity city.trim geo rest

/-! ### Supporting lemmas -/

theorem randInt_fst_bounds (a b : ℤ) (g : RngState) (h : a ≤ b) :
    a ≤ (randInt a b g).1 ∧ (randInt a b g).1 ≤ b := by
  have hm : (0 : ℤ) < b - a + 1 := by omega
  constructor
  · have := Int.emod_nonneg ((rngStep g).1 : ℤ) (by omega : b - a + 1 ≠ 0)
    simp only [randInt]
    omega
  · have := Int.emod_lt_of_pos ((rngStep g).1 : ℤ) hm
    simp only [randInt]
    omega

theorem pyRound_one_bounds {x : ℚ} (h1 : 10 ≤ x) (h2 : x ≤ 85) :
    10 ≤ pyRound 1 x ∧ pyRound 1 x ≤ 85 := by
  have hl : (100 : ℤ) ≤ roundHE (x * 10 ^ 1) := by
    apply le_roundHE_of_le
    push_cast
    linarith
  have hu : roundHE (x * 10 ^ 1) ≤ (850 : ℤ) := by
    apply roundHE_le_of_le
    push_cast
    linarith
  unfold pyRound
  constructor
  · rw [le_div_iff₀ (by norm_num : (0 : ℚ) < 10 ^ 1)]
    calc (10 : ℚ) * 10 ^ 1 = ((100 : ℤ) : ℚ) := by norm_num
    _ ≤ _ := by exact_mod_cast hl
  · rw [div_le_iff₀ (by norm_num : (0 : ℚ) < 10 ^ 1)]
    calc ((roundHE (x * 10 ^ 1) : ℤ) : ℚ) ≤ ((850 : ℤ) : ℚ) := by exact_mod_cast hu
    _ = 85 * 10 ^ 1 := by norm_num

theorem simLoop_length (fmt : Fmt) (tzOff : ℤ) (n : ℕ) :
    ∀ (cur : ℤ) (ev : Bool) (g : RngState),
      ((simLoop fmt tzOff n cur ev g).1).length = n := by
  induction n with
  | zero => intro cur ev g; simp [simLoop]
  | succ n ih => intro cur ev g; simp [simLoop, ih]

theorem simLoop_event (fmt : Fmt) (tzOff : ℤ) (n : ℕ) :
    ∀ (cur : ℤ) (ev : Bool) (g : RngState) (e : PassEvent),
      e ∈ (simLoop fmt tzOff n cur ev g).1 →
      e.source = "simulated" ∧ 120 ≤ e.duration ∧ e.duration ≤ 900 ∧
        ∃ q, e.max_elev_deg = some q ∧ 10 ≤ q ∧ q ≤ 85 ∧
          ∃ r : ℤ, -60 ≤ r ∧ r ≤ 60 ∧
            e.duration = max 120 (min 900 (pyInt (120 + q * 6 + (r : ℚ)))) := by
  induction n with
  | zero => intro cur ev g e he; simp [simLoop] at he
  | succ n ih =>
    intro cur ev g e he
    simp only [simLoop, List.mem_cons] at he
    rcases he with rfl | he
    · refine ⟨rfl, le_max_left _ _, max_le (by norm_num) (min_le_left _ _), ?_⟩
      refine ⟨_, rfl, ?_, ?_, ?_⟩
      · exact (pyRound_one_bounds (le_min (by norm_num) (le_max_left _ _))
          (min_le_left _ _)).1
      · exact (pyRound_one_bounds (le_min (by norm_num) (le_max_left _ _))
          (min_le_left _ _)).2
      · refine ⟨_, ?_, ?_, rfl⟩
        · exact (randInt_fst_bounds (-60) 60 _ (by norm_num)).1
        · exact (randInt_fst_bounds (-60) 60 _ (by norm_num)).2
    · exact ih _ _ _ _ he

theorem sim_length (fmt : Fmt) (tzOff nowUtc : ℤ) (n : ℕ)
    (startUtc : Option ℤ) (seed : Option ℕ) (g : RngState) :
    ((_simulated_passes fmt tzOff nowUtc n startUtc seed g).1).length = n := by
  simp only [_simulated_passes]
  exact simLoop_length fmt tzOff n _ _ _

theorem sim_event (fmt : Fmt) (tzOff nowUtc : ℤ) (n : ℕ)
    (startUtc : Option ℤ) (seed : Option ℕ) (g : RngState) (e : PassEvent)
    (he : e ∈ (_simulated_passes fmt tzOff nowUtc n startUtc seed g).1) :
    e.source = "simulated" ∧ 120 ≤ e.duration ∧ e.duration ≤ 900 ∧
      ∃ q, e.max_elev_deg = some q ∧ 10 ≤ q ∧ q ≤ 85 ∧
        ∃ r : ℤ, -60 ≤ r ∧ r ≤ 60 ∧
          e.duration = max 120 (min 900 (pyInt (120 + q * 6 + (r : ℚ)))) := by
  simp only [_simulated_passes] at he
  exact simLoop_event fmt tzOff n _ _ _ e he

theorem sim_all_sources (fmt : Fmt) (tzOff nowUtc : ℤ) (n : ℕ)
    (startUtc : Option ℤ) (seed : Option ℕ) (g : RngState) :
    ((_simulated_passes fmt tzOff nowUtc n startUtc seed g).1).all
      (fun e => e.source == "simulated") = true := by
  rw [List.all_eq_true]
  intro e he
  have h := (sim_event fmt tzOff nowUtc n startUtc seed g e he).1
  simp [h]

/-! ### Claim theorems: the pass resolver and generator -/

/-- C5: with live prediction disabled (`USE_REAL_API` false) the resolver
performs no network call (its result does not depend on the network
outcome) and returns exactly `count` events, all tagged simulated. -/
theorem disabled_api_uses_simulated (fmt : Fmt) (tzOff nowUtc : ℤ)
    (count : ℕ) (net net2 : NetResult) (g : RngState) :
    get_iss_passes fmt tzOff nowUtc count false net g =
      get_iss_passes fmt tzOff nowUtc count false net2 g ∧
    ((get_iss_passes fmt tzOff nowUtc count false net g).1).length = count ∧
    ((get_iss_passes fmt tzOff nowUtc count false net g).1).all
      (fun e => e.source == "simulated") = true := by
  have key : get_iss_passes fmt tzOff nowUtc count false net g =
      _simulated_passes fmt tzOff nowUtc count none none g := rfl
  refine ⟨rfl, ?_, ?_⟩
  · rw [key]; exact sim_length fmt tzOff nowUtc count none none g
  · rw [key]; exact sim_all_sources fmt tzOff nowUtc count none none g

/-- C8: with a fixed seed, the generator's output does not depend on the
ambient random-source state: two calls with the same seed, count and start
instant produce identical event lists, field for field. -/
theorem sim_seed_deterministic (fmt : Fmt) (tzOff nowUtc : ℤ) (count : ℕ)
    (startUtc : Option ℤ) (S : ℕ) (g1 g2 : RngState) :
    (_simulated_passes fmt tzOff nowUtc count startUtc (some S) g1).1 =
    (_simulated_passes fmt tzOff nowUtc count startUtc (some S) g2).1 := by
  simp only [_simulated_passes, pySeed]

/-- C6: evaluation of the phase update: the evening/morning flag is KEPT
exactly when the uniform draw is below 0.15 (15% of the mass) and flipped
on the remaining 85%, the opposite of the claimed 85%-keep/15%-flip. -/
theorem phase_kept_iff_draw_below_15 (b : Bool) (u : ℚ) :
    phaseStep b u = b ↔ u < 0.15 := by
  by_cases h : (0.15 : ℚ) ≤ u
  · simp only [phaseStep, if_pos h]
    constructor
    · intro hb
      exact absurd hb (by cases b <;> simp)
    · intro hu
      exact absurd h (not_le.2 hu)
  · have hu : u < 0.15 := not_le.1 h
    simp [phaseStep, h, hu]

/-- C4 (amended): on every documented live-client failure outcome the
resolver returns the synthetic list: length equal to the requested count,
every event tagged simulated, and non-empty whenever the count is
positive. -/
theorem fallback_length_sources (fmt : Fmt) (tzOff nowUtc : ℤ) (count : ℕ)
    (net : NetResult) (g : RngState) (hf : netFails net = true) :
    ((get_iss_passes fmt tzOff nowUtc count true net g).1).length = count ∧
    ((get_iss_passes fmt tzOff nowUtc count true net g).1).all
      (fun e => e.source == "simulated") = true ∧
    (0 < count → (get_iss_passes fmt tzOff nowUtc count true net g).1 ≠ []) := by
  have key : get_iss_passes fmt tzOff nowUtc count true net g =
      _simulated_passes fmt tzOff nowUtc count none none g := by
    cases net with
    | raised => rfl
    | ok status passesField =>
      by_cases h1 : status = 403 ∨ status = 429
      · simp [get_iss_passes, h1]
      · by_cases h2 : 400 ≤ status ∧ status < 600
        · simp [get_iss_passes, h1, h2]
        · cases passesField with
          | none => simp [get_iss_passes, h1, h2]
          | some l =>
            cases l with
            | nil => simp [get_iss_passes, h1, h2]
            | cons p ps =>
              exfalso
              obtain ⟨h1a, h1b⟩ := not_or.1 h1
              simp [netFails, h1a, h1b, h2, List.isEmpty_cons,
                decide_eq_true_eq, Bool.or_eq_true, Bool.and_eq_true] at hf
  rw [key]
  refine ⟨sim_length fmt tzOff nowUtc count none none g,
    sim_all_sources fmt tzOff nowUtc count none none g, fun hc => ?_⟩
  apply List.length_pos.1
  rw [sim_length fmt tzOff nowUtc count none none g]
  exact hc

/-- C4 (counterexample): at requested count 0 a documented failure
(HTTP 429) yields the empty list, so the returned list is not always
non-empty. -/
theorem fallback_empty_at_zero_count :
    (get_iss_passes fmtTrivial 0 0 0 true (NetResult.ok 429 none) ⟨0⟩).1 = [] :=
  rfl

/-- C4 (witness): the amended statement at a concrete failing call. -/
theorem fallback_length_sources_witness :
    ((get_iss_passes fmtTrivial 0 0 3 true (NetResult.ok 429 none) ⟨0⟩).1).length = 3 ∧
    ((get_iss_passes fmtTrivial 0 0 3 true (NetResult.ok 429 none) ⟨0⟩).1).all
      (fun e => e.source == "simulated") = true ∧
    (0 < 3 → (get_iss_passes fmtTrivial 0 0 3 true (NetResult.ok 429 none) ⟨0⟩).1 ≠ []) :=
  fallback_length_sources fmtTrivial 0 0 3 (NetResult.ok 429 none) ⟨0⟩ rfl

/-- C7 (amended): every generated event has duration in [120, 900] and
elevation in [10, 85], with the duration obtained by clamping the
int-truncated `120 + max_elev * 6 + randint(-60, 60)` to [120, 900]. -/
theorem sim_bounds_duration_formula (fmt : Fmt) (tzOff nowUtc : ℤ) (n : ℕ)
    (startUtc : Option ℤ) (seed : Option ℕ) (g : RngState) (e : PassEvent)
    (he : e ∈ (_simulated_passes fmt tzOff nowUtc n startUtc seed g).1) :
    120 ≤ e.duration ∧ e.duration ≤ 900 ∧
      ∃ q, e.max_elev_deg = some q ∧ 10 ≤ q ∧ q ≤ 85 ∧
        ∃ r : ℤ, -60 ≤ r ∧ r ≤ 60 ∧
          e.duration = max 120 (min 900 (pyInt (120 + q * 6 + (r : ℚ)))) :=
  (sim_event fmt tzOff nowUtc n startUtc seed g e he).2

/-- Full evaluation of the one-event run with seed 0 used by the C7
witness and counterexample: the draws are the LCG chain 12345,
1406932606, 654583775, 1449466924, 229283573, 1109335178, 1051550459,
1293799192. -/
theorem sim_run_seed0 :
    (_simulated_passes fmtTrivial 0 0 1 none (some 0) ⟨0⟩).1 =
      [⟨"", "", "", 361, some (441/10), "simulated"⟩] := by
  have h1 : randRandom ⟨0⟩ = ((12345 : ℚ)/2147483648, ⟨12345⟩) := by
    norm_num [randRandom, rngStep, lcgNext]
  have hev : decide (((12345 : ℚ)/2147483648) < 0.65) = true :=
    decide_eq_true (by norm_num)
  have h2 : randChoice dayGapChoices ⟨12345⟩ = (3, ⟨1406932606⟩) := by
    norm_num [randChoice, rngStep, lcgNext, dayGapChoices]
  have h3 : randRandom ⟨1406932606⟩ = ((654583775 : ℚ)/2147483648, ⟨654583775⟩) := by
    norm_num [randRandom, rngStep, lcgNext]
  have hph : phaseStep true ((654583775 : ℚ)/2147483648) = false := by
    rw [phaseStep, if_pos (by norm_num)]
    rfl
  have h4 : randInt 4 7 ⟨654583775⟩ = (4, ⟨1449466924⟩) := by
    norm_num [randInt, rngStep, lcgNext]
  have h5 : randInt 0 59 ⟨1449466924⟩ = (53, ⟨229283573⟩) := by
    norm_num [randInt, rngStep, lcgNext]
  have h6 : randInt 0 59 ⟨229283573⟩ = (38, ⟨1109335178⟩) := by
    norm_num [randInt, rngStep, lcgNext]
  have h7 : randGauss 45 15 ⟨1109335178⟩ =
      ((47319770655 : ℚ)/1073741824, ⟨1051550459⟩) := by
    norm_num [randGauss, rngStep, lcgNext]
  have h8 : randInt (-60) 60 ⟨1051550459⟩ = (-23, ⟨1293799192⟩) := by
    norm_num [randInt, rngStep, lcgNext]
  have hme : pyRound 1 (min 85 (max 10 ((47319770655 : ℚ)/1073741824))) = 441/10 := by
    have hmax : max (10 : ℚ) (47319770655/1073741824) = 47319770655/1073741824 :=
      max_eq_right (by norm_num)
    have hmin : min (85 : ℚ) (47319770655/1073741824) = 47319770655/1073741824 :=
      min_eq_right (by norm_num)
    rw [hmax, hmin, pyRound]
    have hfl : ⌊(47319770655 : ℚ)/1073741824 * 10 ^ 1⌋ = 440 := by norm_num
    have hrd : roundHE ((47319770655 : ℚ)/1073741824 * 10 ^ 1) = 441 := by
      unfold roundHE
      rw [hfl]
      norm_num
    rw [hrd]
    norm_num
  have hdur : max 120 (min 900 (pyInt (120 + (441/10 : ℚ) * 6 + ((-23 : ℤ) : ℚ)))) = 361 := by
    have harg : (120 + (441/10 : ℚ) * 6 + ((-23 : ℤ) : ℚ)) = 1808/5 := by norm_num
    rw [harg, pyInt, if_neg (by norm_num)]
    have hfl : ⌊(1808 : ℚ)/5⌋ = 361 := by norm_num
    rw [hfl]
    norm_num [min_def, max_def]
  rw [show (1 : ℕ) = 0 + 1 from rfl]
  simp only [_simulated_passes, pySeed, mkRng, simLoop, Option.getD, h1, hev,
    h2, h3, hph, h4, h5, h6, h7, h8, hme, hdur, fmtTrivial, Bool.false_eq_true,
    if_false]

/-- C7 (witness): the amended statement at a concrete one-event run. -/
theorem sim_bounds_duration_formula_witness :
    120 ≤ (⟨"", "", "", 361, some (441/10), "simulated"⟩ : PassEvent).duration ∧
    (⟨"", "", "", 361, some (441/10), "simulated"⟩ : PassEvent).duration ≤ 900 ∧
    ∃ q, (⟨"", "", "", 361, some (441/10), "simulated"⟩ : PassEvent).max_elev_deg = some q ∧
      10 ≤ q ∧ q ≤ 85 ∧
      ∃ r : ℤ, -60 ≤ r ∧ r ≤ 60 ∧
        (⟨"", "", "", 361, some (441/10), "simulated"⟩ : PassEvent).duration =
          max 120 (min 900 (pyInt (120 + q * 6 + (r : ℚ)))) :=
  sim_bounds_duration_formula fmtTrivial 0 0 1 none (some 0) ⟨0⟩
    ⟨"", "", "", 361, some (441/10), "simulated"⟩
    (by rw [sim_run_seed0]; exact List.mem_singleton.2 rfl)

/-- C7 (counterexample): the run with seed 0 emits an event with
`max_elev_deg = 44.1` and `duration = 361`, and no admissible draw of
`uniform_int(-60, 60)` makes `361` equal to the un-truncated
`clamp(120 + 44.1 * 6 + r, 120, 900)` (which is always fractional here),
so the claimed formula without the inner `int()` truncation fails. -/
theorem sim_duration_not_unfloored_clamp :
    (⟨"", "", "", 361, some (441/10), "simulated"⟩ : PassEvent) ∈
      (_simulated_passes fmtTrivial 0 0 1 none (some 0) ⟨0⟩).1 ∧
    ((List.range 121).all (fun i =>
      !(decide (((361 : ℤ) : ℚ) =
        max 120 (min 900 (120 + (441/10 : ℚ) * 6 + ((i : ℚ) - 60))))))) = true := by
  constructor
  · rw [sim_run_seed0]
    exact List.mem_singleton.2 rfl
  · rw [List.all_eq_true]
    intro i hi
    simp only [List.mem_range] at hi
    have hle : (i : ℚ) ≤ 120 := by exact_mod_cast Nat.le_of_lt_succ hi
    have h0 : (0 : ℚ) ≤ (i : ℚ) := by positivity
    have hmin : min (900 : ℚ) (120 + (441/10 : ℚ) * 6 + ((i : ℚ) - 60)) =
        120 + (441/10 : ℚ) * 6 + ((i : ℚ) - 60) := min_eq_right (by linarith)
    have hmax : max (120 : ℚ) (120 + (441/10 : ℚ) * 6 + ((i : ℚ) - 60)) =
        120 + (441/10 : ℚ) * 6 + ((i : ℚ) - 60) := max_eq_right (by linarith)
    rw [Bool.not_eq_true', decide_eq_false_iff_not]
    intro hEq
    rw [hmin, hmax] at hEq
    have h5 : ((5 * i : ℕ) : ℚ) = 182 := by push_cast; linarith
    have h5n : 5 * i = 182 := by exact_mod_cast h5
    omega

/-- C9 (counterexample): on a successful live response the produced events
are tagged with source "n2yo", not "live". -/
theorem live_tag_is_n2yo_not_live :
    ((get_iss_passes fmtTrivial 0 0 5 true
        (NetResult.ok 200 (some [⟨100, some 300⟩])) ⟨0⟩).1.all
      (fun e => e.source == "live")) = false := by
  decide

/-- C9 (amended): on a successful live response every upstream record maps
to an event that preserves the upstream duration (default 0 when absent)
and is tagged with source "n2yo", the live-path member of the
simulated/n2yo provenance pair. -/
theorem live_success_map_tag_duration (fmt : Fmt) (tzOff nowUtc : ℤ)
    (count : ℕ) (g : RngState) (status : ℕ) (l : List PassRecord)
    (h403 : status ≠ 403) (h429 : status ≠ 429)
    (hok : ¬ (400 ≤ status ∧ status < 600)) (hne : l ≠ []) :
    (get_iss_passes fmt tzOff nowUtc count true (.ok status (some l)) g).1 =
      l.map (liveEvent fmt tzOff) ∧
    ((get_iss_passes fmt tzOff nowUtc count true (.ok status (some l)) g).1).map
      (fun e => (e.source, e.duration)) =
      l.map (fun p => ("n2yo", p.duration.getD 0)) := by
  match l, hne with
  | p :: ps, _ =>
    have key : (get_iss_passes fmt tzOff nowUtc count true
        (.ok status (some (p :: ps))) g).1 = (p :: ps).map (liveEvent fmt tzOff) := by
      simp [get_iss_passes, h403, h429, hok]
    refine ⟨key, ?_⟩
    rw [key, List.map_map]
    rfl

/-- C9 (witness): the amended statement at a concrete successful response. -/
theorem live_success_map_tag_duration_witness :
    (get_iss_passes fmtTrivial 0 0 5 true
        (NetResult.ok 200 (some [⟨100, some 300⟩])) ⟨0⟩).1 =
      ([⟨100, some 300⟩] : List PassRecord).map (liveEvent fmtTrivial 0) ∧
    ((get_iss_passes fmtTrivial 0 0 5 true
        (NetResult.ok 200 (some [⟨100, some 300⟩])) ⟨0⟩).1).map
      (fun e => (e.source, e.duration)) =
      ([⟨100, some 300⟩] : List PassRecord).map (fun p => ("n2yo", p.duration.getD 0)) :=
  live_success_map_tag_duration fmtTrivial 0 0 5 ⟨0⟩ 200 [⟨100, some 300⟩]
    (by decide) (by decide) (by decide) (by decide)

/-! ### Claim theorems: the collision estimator -/

theorem riskLoop_length (fmtEvent : ℤ → String) (nowUtc : ℤ) (days : ℕ) :
    ∀ (l : List DebrisObj) (g : RngState),
      ((riskLoop fmtEvent nowUtc days l g).1).length = l.length := by
  intro l
  induction l with
  | nil => intro g; simp [riskLoop]
  | cons o rest ih => intro g; simp [riskLoop, ih]

theorem riskLoop_tuple_map (fmtEvent : ℤ → String) (nowUtc : ℤ) (days : ℕ) :
    ∀ (l : List DebrisObj) (g : RngState),
      ((riskLoop fmtEvent nowUtc days l g).1).map
        (fun r => (r.object_name, r.level, r.miss_distance_km)) =
      l.map (fun o => (o.name, riskLevel o, pyRound 2 (heurDist o))) := by
  intro l
  induction l with
  | nil => intro g; simp [riskLoop]
  | cons o rest ih => intro g; simp [riskLoop, mkRiskEntry, ih]

theorem altitudeDiff_atlas : altitudeDiff ⟨"ATLAS V R/B", 420, 51.7⟩ = 12 := by
  norm_num [altitudeDiff]

theorem incDiff_atlas : incDiff ⟨"ATLAS V R/B", 420, 51.7⟩ = 1/10 := by
  norm_num [incDiff]

theorem heurDist_atlas : heurDist ⟨"ATLAS V R/B", 420, 51.7⟩ = Real.sqrt 26 := by
  rw [heurDist, altitudeDiff_atlas, incDiff_atlas]
  congr 1
  push_cast
  norm_num

theorem sqrt26_gt : (5095 : ℝ)/1000 < Real.sqrt 26 :=
  (Real.lt_sqrt (by norm_num)).2 (by norm_num)

theorem sqrt26_lt : Real.sqrt 26 < (5105 : ℝ)/1000 :=
  (Real.sqrt_lt' (by norm_num)).2 (by norm_num)

theorem atlas_level : riskLevel ⟨"ATLAS V R/B", 420, 51.7⟩ = "High" := by
  rw [riskLevel, heurDist_atlas, if_pos]
  exact lt_trans sqrt26_lt (by norm_num)

theorem atlas_miss : pyRound 2 (heurDist ⟨"ATLAS V R/B", 420, 51.7⟩) = 51/10 := by
  rw [heurDist_atlas]
  unfold pyRound
  have h510 : roundHE (Real.sqrt 26 * (10 : ℝ) ^ 2) = 510 := by
    apply le_antisymm
    · apply roundHE_le
      have h := sqrt26_lt
      rw [show ((10 : ℝ) ^ 2) = 100 by norm_num]
      push_cast
      linarith
    · apply le_roundHE
      have h := sqrt26_gt
      rw [show ((10 : ℝ) ^ 2) = 100 by norm_num]
      push_cast
      linarith
  rw [h510]
  norm_num

/-- C1: the ATLAS V R/B catalog entry comes out of the estimator with a
heuristic distance of sqrt(12*2 + 1*2) = sqrt 26, rounded to 5.1 km, and
is classified High — not the claimed sqrt(144 + 1) ≈ 12.04 / Medium,
because the source multiplies each term by 2 instead of squaring. -/
theorem collision_atlas_misclassified (fmtEvent : ℤ → String) (nowUtc : ℤ)
    (days : ℕ) (g : RngState) :
    ("ATLAS V R/B", "High", (51 : ℝ)/10) ∈
      ((get_collision_risks fmtEvent nowUtc days g).1).map
        (fun r => (r.object_name, r.level, r.miss_distance_km)) := by
  simp only [get_collision_risks]
  have hperm := (List.mergeSort_perm
      ((riskLoop fmtEvent nowUtc days debris_objects g).1) riskLE).map
      (fun r : Risk => (r.object_name, r.level, r.miss_distance_km))
  rw [hperm.mem_iff, riskLoop_tuple_map]
  simp only [debris_objects, List.map_cons, List.map_nil, List.mem_cons]
  refine Or.inr (Or.inr (Or.inr (Or.inl ?_)))
  rw [atlas_level, atlas_miss]

/-- C3: every call of the estimator returns exactly 6 entries (one per
catalog object), sorted non-decreasing by miss distance. -/
theorem collision_risks_six_sorted (fmtEvent : ℤ → String) (nowUtc : ℤ)
    (days : ℕ) (g : RngState) :
    ((get_collision_risks fmtEvent nowUtc days g).1).length = 6 ∧
    List.Sorted (fun a b : Risk => a.miss_distance_km ≤ b.miss_distance_km)
      ((get_collision_risks fmtEvent nowUtc days g).1) := by
  constructor
  · simp only [get_collision_risks]
    rw [List.length_mergeSort, riskLoop_length]
    rfl
  · simp only [get_collision_risks]
    have htrans : ∀ a b c : Risk, riskLE a b → riskLE b c → riskLE a c := by
      intro a b c h1 h2
      exact decide_eq_true (le_trans (of_decide_eq_true h1) (of_decide_eq_true h2))
    have htotal : ∀ a b : Risk, riskLE a b || riskLE b a := by
      intro a b
      rcases le_total a.miss_distance_km b.miss_distance_km with h | h
      · simp [riskLE, h]
      · simp [riskLE, h]
    have hs := List.sorted_mergeSort htrans htotal
      ((riskLoop fmtEvent nowUtc days debris_objects g).1)
    exact hs.imp (fun hab => of_decide_eq_true hab)

/-- C2: the probability the estimator records for the ATLAS V R/B entry
differs from exp(-distance^2 / (2 * 20^2)) * 1e-3 rounded to 6 decimals
(the code computes exp(-(distance * 2) / (2 * (20 * 2))) * 1e-3 instead:
multiplication by 2, not squaring). -/
theorem collision_prob_formula_deviates :
    collisionProb ⟨"ATLAS V R/B", 420, 51.7⟩ ≠
      pyRound 6 (Real.exp (-(heurDist ⟨"ATLAS V R/B", 420, 51.7⟩) ^ 2 /
        (2 * 20 ^ 2)) * (1/1000)) := by
  have hALe : collisionProb ⟨"ATLAS V R/B", 420, 51.7⟩ ≤ (887 : ℝ)/10^6 := by
    unfold collisionProb pyRound
    rw [heurDist_atlas]
    have hexp : Real.exp (-(Real.sqrt 26 * 2) / (2 * (20 * 2))) ≤ (1000 : ℝ)/1127 := by
      have h2 : -(Real.sqrt 26 * 2) / (2 * (20 * 2)) ≤ -(127 : ℝ)/1000 := by
        have h := sqrt26_gt
        rw [show ((2 : ℝ) * (20 * 2)) = 80 by norm_num]
        rw [div_le_iff₀ (by norm_num : (0 : ℝ) < 80)]
        linarith
      have h3 := Real.exp_le_exp.2 h2
      have h5 : (1127 : ℝ)/1000 ≤ Real.exp ((127 : ℝ)/1000) := by
        have := Real.add_one_le_exp ((127 : ℝ)/1000)
        linarith
      have h6 : Real.exp (-(127 : ℝ)/1000) ≤ (1000 : ℝ)/1127 := by
        rw [show (-(127 : ℝ)/1000) = -((127 : ℝ)/1000) by ring, Real.exp_neg]
        calc (Real.exp ((127 : ℝ)/1000))⁻¹ ≤ ((1127 : ℝ)/1000)⁻¹ := by
              apply inv_anti₀ (by norm_num) h5
          _ = (1000 : ℝ)/1127 := by norm_num
      exact le_trans h3 h6
    have hr : roundHE (Real.exp (-(Real.sqrt 26 * 2) / (2 * (20 * 2))) *
        (1/1000) * (10 : ℝ) ^ 6) ≤ (887 : ℤ) := by
      apply roundHE_le
      push_cast
      nlinarith [hexp]
    calc ((roundHE (Real.exp (-(Real.sqrt 26 * 2) / (2 * (20 * 2))) *
            (1/1000) * (10 : ℝ) ^ 6) : ℤ) : ℝ) / (10 : ℝ) ^ 6
        ≤ ((887 : ℤ) : ℝ) / (10 : ℝ) ^ 6 := by gcongr
      _ = (887 : ℝ)/10^6 := by norm_num
  have hBGe : (968 : ℝ)/10^6 ≤
      pyRound 6 (Real.exp (-(heurDist ⟨"ATLAS V R/B", 420, 51.7⟩) ^ 2 /
        (2 * 20 ^ 2)) * (1/1000)) := by
    rw [heurDist_atlas, Real.sq_sqrt (by norm_num : (0 : ℝ) ≤ 26)]
    unfold pyRound
    have hexp : (387 : ℝ)/400 < Real.exp (-(26 : ℝ) / (2 * 20 ^ 2)) := by
      have hx : (-(26 : ℝ) / (2 * 20 ^ 2)) ≠ 0 := by norm_num
      have := Real.add_one_lt_exp hx
      have harg : (-(26 : ℝ) / (2 * 20 ^ 2)) = -(13 : ℝ)/400 := by norm_num
      rw [harg] at this ⊢
      linarith
    have hr : (968 : ℤ) ≤ roundHE (Real.exp (-(26 : ℝ) / (2 * 20 ^ 2)) *
        (1/1000) * (10 : ℝ) ^ 6) := by
      apply le_roundHE
      push_cast
      nlinarith [hexp]
    calc (968 : ℝ)/10^6 = ((968 : ℤ) : ℝ) / (10 : ℝ) ^ 6 := by norm_num
      _ ≤ _ := by gcongr
  intro hEq
  rw [hEq] at hALe
  have : (968 : ℝ)/10^6 ≤ (887 : ℝ)/10^6 := le_trans hBGe hALe
  norm_num at this

/-! ### Claim theorems: the request handler -/

/-- C10: when geocoding of a (stripped, nonempty) city succeeds with
latitude exactly 0.0, the handler reports the city as not found (the
truthiness test `if not user_lat` conflates 0.0 with the None failure
sentinel) and the rest of the pipeline never runs (the result does not
depend on it). -/
theorem zero_latitude_reports_not_found (userCity : String) (lon : ℚ)
    (addr : String) (rest : ℚ → ℚ → String → PageResult)
    (h : userCity ≠ "") :
    handleCity userCity (some (0, lon, addr)) rest =
      .errorPage ("Could not find location for '" ++ userCity ++ "'.") := by
  simp [handleCity, h]

/-- C10 (witness): the statement at a concrete city and collaborator. -/
theorem zero_latitude_reports_not_found_witness :
    handleCity "Quito" (some (0, -(785 : ℚ)/10, "Quito, Ecuador"))
        (fun _ _ _ => PageResult.resultsPage "") =
      PageResult.errorPage ("Could not find location for '" ++ "Quito" ++ "'.") :=
  zero_latitude_reports_not_found "Quito" (-(785 : ℚ)/10) "Quito, Ecuador"
    (fun _ _ _ => PageResult.resultsPage "") (by decide)

end ISSTracker
